import Mathlib

/-!
Verification of the EasyTier-iOS network-extension boundary.

The repository ships only the C declarations of the boundary
(easytier_ffi.h, easytier_ios.h, kern_control.h and the bridging header);
the Instance Manager, Device Binder, Config Validator and Status/Error
Channel behind those declarations are described by the design document.
We embed that boundary shallowly: the manager state is explicit, every
operation is a pure function from state to result-and-state, and the
opaque Instance Runtime and platform checks are parameters (an `Env`).
-/

deriving instance DecidableEq for Except

namespace EasyTier

/-- Modelled from the spec: a structured configuration document with named
fields (the concrete TOML syntax of `parse_config` is out of scope); we
represent it as an association list of field names to field values. -/
abbrev Document := List (String × String)

/-- Modelled from the spec: `ConfigError`, returned when required fields are
absent, type-mismatched or unsupported. -/
inductive ConfigError where
  | missingField
deriving DecidableEq

/-- Modelled from the spec: `InstanceConfig`, the validated, immutable result
of parsing a configuration document. -/
structure InstanceConfig where
  fields : Document
deriving DecidableEq

/-- Modelled from the spec: the `InstanceError` taxonomy of the Instance
Manager (unknown instance, configuration failure, runtime startup or
teardown failure). -/
inductive InstanceError where
  | unknownInstance
  | configError
  | startFailure
  | teardownFailure
deriving DecidableEq

/-- Modelled from the spec: the `BindError` taxonomy of the Device Binder. -/
inductive BindError where
  | unknownInstance
  | alreadyBound
  | invalidHandle
deriving DecidableEq

/-- Modelled from the spec: a managed `Instance`: its validated config and the
optionally bound device handle (a raw file descriptor). An instance with
`device = none` is in state Created, with `device = some fd` it is Bound;
the runtime handle is represented by registry membership itself. -/
structure Instance where
  config : InstanceConfig
  device : Option Nat
deriving DecidableEq

/-- Modelled from the spec: the Instance Manager state: the registry of named
instances in insertion order, and the process-wide Error Slot holding the
most recent failure message. -/
structure MgrState where
  registry : List (String × Instance)
  errorSlot : Option String
deriving DecidableEq

/-- Modelled from the spec: the external collaborators the manager calls out
to, left abstract: the set of required configuration fields, the Instance
Runtime startup and teardown outcomes, and the platform device-handle
check. -/
structure Env where
  required : List String
  start : InstanceConfig → Bool
  teardown : String → Bool
  validHandle : Nat → Bool

/-- Write a failure message into the process-wide Error Slot. -/
def set_error (s : MgrState) (m : String) : MgrState :=
  { s with errorSlot := some m }

/-- The names currently registered, in registry (insertion) order. -/
def registered_names (s : MgrState) : List String :=
  s.registry.map Prod.fst

/-- Whether a name is currently registered. -/
def is_registered (n : String) (s : MgrState) : Bool :=
  (s.registry.lookup n).isSome

/-- How many registry entries carry a given name. -/
def count_name (n : String) (s : MgrState) : Nat :=
  (s.registry.filter (fun p => p.1 == n)).length

/-- Whether the Error Slot holds a non-empty message. -/
def slot_nonempty (s : MgrState) : Bool :=
  match s.errorSlot with
  | some m => !(m == "")
  | none => false

/-- Modelled from the spec: the Config Validator
`validate(document) -> Result<InstanceConfig, ConfigError>`; it rejects a
document in which a required field is absent. The Rust implementation of
`parse_config` is not part of this repository. -/
def validate_config (E : Env) (d : Document) : Except ConfigError InstanceConfig :=
  if E.required.all (fun k => (d.lookup k).isSome) then
    Except.ok { fields := d }
  else
    Except.error ConfigError.missingField

/-- Modelled from the spec: `validate` as a boundary operation, writing the
Error Slot on failure and otherwise leaving the state untouched. -/
def validate_op (E : Env) (d : Document) (s : MgrState) :
    Except ConfigError InstanceConfig × MgrState :=
  match validate_config E d with
  | Except.ok c => (Except.ok c, s)
  | Except.error e => (Except.error e, set_error s "configuration invalid")

/-- Modelled from the spec: `create_and_start(name, config)`: a no-op success
when the name is already registered; otherwise validate, start the runtime,
and register the new instance only when startup succeeded. The Rust
implementation of `run_network_instance` is not part of this repository. -/
def create_and_start (E : Env) (n : String) (d : Document) (s : MgrState) :
    Except InstanceError Unit × MgrState :=
  if is_registered n s then
    (Except.ok (), s)
  else
    match validate_config E d with
    | Except.error _ =>
        (Except.error InstanceError.configError, set_error s "configuration invalid")
    | Except.ok cfg =>
        if E.start cfg then
          (Except.ok (), { s with registry := s.registry ++ [(n, { config := cfg, device := none })] })
        else
          (Except.error InstanceError.startFailure, set_error s "runtime startup failed")

/-- Modelled from the spec: `stop(name)`: UnknownInstance when absent,
otherwise signal runtime teardown and remove the registry entry. The Rust
implementation of `stop_network_instance` is not part of this repository. -/
def stop (E : Env) (n : String) (s : MgrState) :
    Except InstanceError Unit × MgrState :=
  if is_registered n s then
    if E.teardown n then
      (Except.ok (), { s with registry := s.registry.filter (fun p => !(p.1 == n)) })
    else
      (Except.error InstanceError.teardownFailure, set_error s "runtime teardown failed")
  else
    (Except.error InstanceError.unknownInstance, set_error s "unknown instance")

/-- Modelled from the spec: `retain(names)`: stop and remove every registered
instance whose name is not in the set; never create. An instance whose
teardown fails keeps its registry entry, and any such failure makes the
whole call fail. The Rust implementation of `retain_network_instance` is
not part of this repository. -/
def retain (E : Env) (names : List String) (s : MgrState) :
    Except InstanceError Unit × MgrState :=
  let keep := s.registry.filter (fun p => names.contains p.1 || !(E.teardown p.1))
  let failed := s.registry.filter (fun p => !(names.contains p.1) && !(E.teardown p.1))
  if failed.isEmpty then
    (Except.ok (), { s with registry := keep })
  else
    (Except.error InstanceError.teardownFailure,
      set_error { s with registry := keep } "runtime teardown failed")

/-- Modelled from the spec: `bind_device(name, handle)`: UnknownInstance when
the name is absent, InvalidHandle when the platform rejects the handle,
no-op success on re-binding the same handle, AlreadyBound on a different
handle, and otherwise record the binding. The Rust implementation of
`set_tun_fd` is not part of this repository. -/
def bind_device (E : Env) (n : String) (fd : Nat) (s : MgrState) :
    Except BindError Unit × MgrState :=
  match s.registry.lookup n with
  | none => (Except.error BindError.unknownInstance, set_error s "unknown instance")
  | some inst =>
      if E.validHandle fd then
        match inst.device with
        | some d =>
            if d == fd then
              (Except.ok (), s)
            else
              (Except.error BindError.alreadyBound, set_error s "device already bound")
        | none =>
            (Except.ok (),
              { s with registry :=
                  s.registry.map (fun p =>
                    if p.1 == n then (p.1, { p.2 with device := some fd }) else p) })
      else
        (Except.error BindError.invalidHandle, set_error s "invalid device handle")

/-- Modelled from the spec: an `InfoSnapshot`, the transient export of one
instance for the Status/Error Channel. -/
structure InfoSnapshot where
  name : String
  attrs : Document
deriving DecidableEq

/-- Produce the snapshot of one registry entry. -/
def snapshot (p : String × Instance) : InfoSnapshot :=
  { name := p.1, attrs := p.2.config.fields }

/-- Modelled from the spec: `collect_info(buffer, capacity)`: at most
`maxEntries` snapshots in registry order, returning the count written, or a
negative code (with the Error Slot written) when the output buffer is
invalid. The Rust implementation of `collect_network_infos` is not part of
this repository. -/
def collect_info (bufValid : Bool) (maxEntries : Nat) (s : MgrState) :
    (Int × List InfoSnapshot) × MgrState :=
  if bufValid then
    ((Int.ofNat (min s.registry.length maxEntries),
      (s.registry.take maxEntries).map snapshot), s)
  else
    ((-1, []), set_error s "invalid output buffer")

/-- Modelled from the spec: `last_error()`: read the Error Slot without
clearing it (persist-until-overwritten semantics, as the spec recommends).
The Rust implementation of `get_error_msg` is not part of this repository. -/
def last_error (s : MgrState) : String × MgrState :=
  (s.errorSlot.getD "", s)

/-- Modelled from the spec: `release_message` (`free_string`) over the set of
live message handles: releasing a null handle is a no-op, releasing a live
handle removes it. The Rust implementation of `free_string` is not part of
this repository. -/
def release_message (h : Option Nat) (heap : Finset Nat) : Finset Nat :=
  match h with
  | none => heap
  | some p => heap.erase p

end EasyTier

/-- From EasyTierNetworkExtension-Bridging-Header.h: the value given to
CTLIOCGINFO on the TARGET_OS_OSX branch. -/
def BridgingHeaderMacOS.CTLIOCGINFO : Nat := 0xc0644e03

/-- From kern_control.h: the value given to CTLIOCGINFO in the iOS fallback
header. -/
def KernControlHeader.CTLIOCGINFO : Nat := 0xc0644e03

namespace EasyTier

/-- A well-behaved environment: runtime startup and teardown succeed and
every device handle is accepted. -/
def envOk : Env :=
  { required := ["network_name"], start := fun _ => true,
    teardown := fun _ => true, validHandle := fun _ => true }

/-- An environment whose Instance Runtime fails to start. -/
def envStartFail : Env :=
  { required := ["network_name"], start := fun _ => false,
    teardown := fun _ => true, validHandle := fun _ => true }

/-- An environment whose Instance Runtime fails to tear down. -/
def envTeardownFail : Env :=
  { required := ["network_name"], start := fun _ => true,
    teardown := fun _ => false, validHandle := fun _ => true }

/-- An environment whose platform rejects every device handle. -/
def envBadHandle : Env :=
  { required := ["network_name"], start := fun _ => true,
    teardown := fun _ => true, validHandle := fun _ => false }

/-- A concrete valid configuration document. -/
def docOk : Document := [("network_name", "net1")]

/-- A concrete invalid configuration document (required field absent). -/
def docBad : Document := [("hostname", "h1")]

/-- The empty manager state. -/
def st0 : MgrState := { registry := [], errorSlot := none }

/-- A concrete instance built from the valid document, unbound. -/
def instA : Instance := { config := { fields := docOk }, device := none }

/-- A state with the single unbound instance named a. -/
def stA : MgrState := { registry := [("a", instA)], errorSlot := none }

/-- A state with the three unbound instances a, b, c. -/
def stABC : MgrState :=
  { registry := [("a", instA), ("b", instA), ("c", instA)], errorSlot := none }

/-- A concrete instance bound to device handle 3. -/
def instBound : Instance := { config := { fields := docOk }, device := some 3 }

/-- A state whose instance a is bound to device handle 3. -/
def stBound : MgrState :=
  { registry := [("a", instBound)], errorSlot := none }

end EasyTier

namespace EasyTier

/-- Looking a name up after appending an entry for that very name finds the
appended entry, provided the name was absent before. -/
lemma lookup_append_one {β : Type} (n : String) (x : β) (l : List (String × β))
    (h : l.lookup n = none) : (l ++ [(n, x)]).lookup n = some x := by
  induction l with
  | nil => simp [List.lookup]
  | cons p t ih =>
    obtain ⟨k, v⟩ := p
    rw [List.lookup_cons] at h
    cases hb : (n == k) with
    | true => simp [hb] at h
    | false =>
      simp only [hb] at h
      simp only [List.cons_append, List.lookup_cons, hb]
      exact ih h

/-- A name that fails lookup has no entries at all. -/
lemma filter_beq_eq_nil {β : Type} (n : String) (l : List (String × β))
    (h : l.lookup n = none) : l.filter (fun p => p.1 == n) = [] := by
  induction l with
  | nil => rfl
  | cons p t ih =>
    obtain ⟨k, v⟩ := p
    rw [List.lookup_cons] at h
    cases hb : (n == k) with
    | true => simp [hb] at h
    | false =>
      simp only [hb] at h
      have hb2 : (k == n) = false := by
        simp only [beq_eq_false_iff_ne] at hb ⊢
        exact fun he => hb he.symm
      simp only [List.filter_cons, hb2, Bool.false_eq_true, if_false]
      exact ih h

/-- After filtering a name out, looking that name up fails. -/
lemma lookup_filter_not {β : Type} (n : String) (l : List (String × β)) :
    (l.filter (fun p => !(p.1 == n))).lookup n = none := by
  induction l with
  | nil => rfl
  | cons p t ih =>
    obtain ⟨k, v⟩ := p
    cases hb : (k == n) with
    | true =>
      simp only [List.filter_cons, hb, Bool.not_true, Bool.false_eq_true, if_false]
      exact ih
    | false =>
      have hb2 : (n == k) = false := by
        simp only [beq_eq_false_iff_ne] at hb ⊢
        exact fun he => hb he.symm
      simp only [List.filter_cons, hb, Bool.not_false, if_true, List.lookup_cons, hb2]
      exact ih

/-- An unregistered name fails registry lookup. -/
lemma lookup_none_of_not_registered (n : String) (s : MgrState)
    (h : is_registered n s = false) : s.registry.lookup n = none := by
  unfold is_registered at h
  cases hl : s.registry.lookup n with
  | none => rfl
  | some v => rw [hl] at h; simp at h

/-- C1: create_and_start on an already-registered name is a no-op success
leaving the state untouched; and starting an unregistered name successfully,
then calling create_and_start again, leaves exactly one instance under that
name (idempotent create). -/
theorem create_and_start_idempotent :
    (∀ E n d s, is_registered n s = true →
      create_and_start E n d s = (Except.ok (), s)) ∧
    (∀ E n d s, is_registered n s = false →
      (create_and_start E n d s).1 = Except.ok () →
      count_name n (create_and_start E n d s).2 = 1 ∧
      create_and_start E n d (create_and_start E n d s).2 =
        (Except.ok (), (create_and_start E n d s).2) ∧
      count_name n (create_and_start E n d (create_and_start E n d s).2).2 = 1) := by
  constructor
  · intro E n d s h
    simp [create_and_start, h]
  · intro E n d s h hok
    have hl : s.registry.lookup n = none := lookup_none_of_not_registered n s h
    cases hv : validate_config E d with
    | error e =>
      exfalso
      simp [create_and_start, h, hv] at hok
    | ok cfg =>
      cases hst : E.start cfg with
      | false =>
        exfalso
        simp [create_and_start, h, hv, hst] at hok
      | true =>
        have hres : create_and_start E n d s =
            (Except.ok (), { s with registry :=
              s.registry ++ [(n, { config := cfg, device := none })] }) := by
          simp [create_and_start, h, hv, hst]
        rw [hres]
        dsimp only
        have hreg : is_registered n { s with registry :=
            s.registry ++ [(n, { config := cfg, device := none })] } = true := by
          unfold is_registered
          dsimp only
          rw [lookup_append_one n _ s.registry hl]
          rfl
        have hcount : count_name n { s with registry :=
            s.registry ++ [(n, { config := cfg, device := none })] } = 1 := by
          unfold count_name
          dsimp only
          simp only [List.filter_append, filter_beq_eq_nil n s.registry hl,
            List.nil_append, List.filter_cons, beq_self_eq_true, if_true]
          rfl
        have hnoop : create_and_start E n d { s with registry :=
              s.registry ++ [(n, { config := cfg, device := none })] } =
            (Except.ok (), { s with registry :=
              s.registry ++ [(n, { config := cfg, device := none })] }) := by
          simp [create_and_start, hreg]
        refine ⟨hcount, hnoop, ?_⟩
        rw [hnoop]
        exact hcount

/-- C1 witness: a concrete run of the two create_and_start calls on the
empty state. -/
theorem create_and_start_idempotent_witness :
    count_name "a" (create_and_start envOk "a" docOk st0).2 = 1 ∧
    create_and_start envOk "a" docOk (create_and_start envOk "a" docOk st0).2 =
      (Except.ok (), (create_and_start envOk "a" docOk st0).2) ∧
    count_name "a"
      (create_and_start envOk "a" docOk (create_and_start envOk "a" docOk st0).2).2 = 1 :=
  create_and_start_idempotent.2 envOk "a" docOk st0 (by decide) (by decide)

end EasyTier

namespace EasyTier

/-- C2: when runtime teardown succeeds, retain reconciles the registry to
exactly those previously-registered entries whose name lies in the given
set, stopping and removing the rest and never creating an instance. -/
theorem retain_reconciles (E : Env) (names : List String) (s : MgrState)
    (h : ∀ m, E.teardown m = true) :
    (retain E names s).1 = Except.ok () ∧
    (retain E names s).2.registry = s.registry.filter (fun p => names.contains p.1) ∧
    ∀ p, p ∈ (retain E names s).2.registry → p ∈ s.registry := by
  have hkeep : s.registry.filter (fun p => names.contains p.1 || !(E.teardown p.1)) =
      s.registry.filter (fun p => names.contains p.1) := by
    apply List.filter_congr
    intro p _
    rw [h p.1]
    simp
  have hfail : s.registry.filter
      (fun p => !(names.contains p.1) && !(E.teardown p.1)) = [] := by
    rw [List.filter_eq_nil_iff]
    intro p _
    rw [h p.1]
    simp
  refine ⟨?_, ?_, ?_⟩
  · simp only [retain, hfail, List.isEmpty_nil, if_true]
  · simp only [retain, hfail, List.isEmpty_nil, if_true]
    exact hkeep
  · intro p hp
    simp only [retain, hfail, List.isEmpty_nil, if_true] at hp
    exact List.mem_of_mem_filter hp

/-- C2 witness: with a, b, c registered, retaining the set containing only b
leaves exactly b registered. -/
theorem retain_reconciles_witness :
    (retain envOk ["b"] stABC).1 = Except.ok () ∧
    (retain envOk ["b"] stABC).2.registry =
      stABC.registry.filter (fun p => (["b"] : List String).contains p.1) ∧
    ∀ p, p ∈ (retain envOk ["b"] stABC).2.registry → p ∈ stABC.registry :=
  retain_reconciles envOk ["b"] stABC (fun _ => rfl)

/-- C3 counterexample: with the single instance a registered, the first stop
succeeds and removes it, but the second stop of a is a failure with
UnknownInstance, not the no-op success the claim asserts. -/
theorem stop_twice_counterexample :
    (stop envOk "a" stA).1 = Except.ok () ∧
    (stop envOk "a" (stop envOk "a" stA).2).1 =
      Except.error InstanceError.unknownInstance := by
  constructor
  · decide
  · decide

/-- C3 amended: stop of an unregistered name fails with UnknownInstance;
consequently, stopping a registered name (with runtime teardown succeeding)
removes it, and a second stop of the same name fails with UnknownInstance
rather than succeeding. -/
theorem stop_unknown_instance :
    (∀ E n s, is_registered n s = false →
      (stop E n s).1 = Except.error InstanceError.unknownInstance) ∧
    (∀ E n s, is_registered n s = true → E.teardown n = true →
      is_registered n (stop E n s).2 = false ∧
      (stop E n (stop E n s).2).1 = Except.error InstanceError.unknownInstance) := by
  have habsent : ∀ E n s, is_registered n s = false →
      (stop E n s).1 = Except.error InstanceError.unknownInstance := by
    intro E n s h
    simp [stop, h]
  refine ⟨habsent, ?_⟩
  intro E n s h htd
  have hres : stop E n s =
      (Except.ok (), { s with registry := s.registry.filter (fun p => !(p.1 == n)) }) := by
    simp [stop, h, htd]
  have hgone : is_registered n (stop E n s).2 = false := by
    rw [hres]
    unfold is_registered
    dsimp only
    rw [lookup_filter_not n s.registry]
    rfl
  exact ⟨hgone, habsent E n (stop E n s).2 hgone⟩

/-- C3 amended witness: a concrete stop-stop run from the one-instance
state. -/
theorem stop_unknown_instance_witness :
    is_registered "a" (stop envOk "a" stA).2 = false ∧
    (stop envOk "a" (stop envOk "a" stA).2).1 =
      Except.error InstanceError.unknownInstance :=
  stop_unknown_instance.2 envOk "a" stA (by decide) (by decide)

/-- C4: with a valid output buffer, collect_info returns exactly
min(registered, capacity) snapshots, one per registered instance in registry
order; with an invalid buffer it returns a negative code. -/
theorem collect_info_bounded :
    (∀ maxEntries s,
      (collect_info true maxEntries s).1.1 =
        Int.ofNat (min s.registry.length maxEntries) ∧
      (collect_info true maxEntries s).1.2.length = min s.registry.length maxEntries ∧
      (collect_info true maxEntries s).1.2.map InfoSnapshot.name =
        (registered_names s).take maxEntries ∧
      (collect_info true maxEntries s).2 = s) ∧
    (∀ maxEntries s, (collect_info false maxEntries s).1.1 < 0) := by
  constructor
  · intro maxEntries s
    refine ⟨rfl, ?_, ?_, rfl⟩
    · simp [collect_info, Nat.min_comm]
    · simp only [collect_info, if_true, registered_names, List.map_take]
      rw [List.map_map]
      rfl
  · intro maxEntries s
    simp [collect_info]

end EasyTier

namespace EasyTier

/-- C5: binding an unregistered name fails with UnknownInstance; re-binding
the handle an instance is already bound to is a no-op success; binding a
different handle to an already-bound instance fails with AlreadyBound. -/
theorem bind_device_exclusive :
    (∀ E n fd s, is_registered n s = false →
      (bind_device E n fd s).1 = Except.error BindError.unknownInstance) ∧
    (∀ E n fd s inst, s.registry.lookup n = some inst → inst.device = some fd →
      E.validHandle fd = true → bind_device E n fd s = (Except.ok (), s)) ∧
    (∀ E n fd fd2 s inst, s.registry.lookup n = some inst → inst.device = some fd →
      fd2 ≠ fd → E.validHandle fd2 = true →
      (bind_device E n fd2 s).1 = Except.error BindError.alreadyBound) := by
  refine ⟨?_, ?_, ?_⟩
  · intro E n fd s h
    have hl := lookup_none_of_not_registered n s h
    simp [bind_device, hl]
  · intro E n fd s inst hl hd hv
    simp [bind_device, hl, hv, hd]
  · intro E n fd fd2 s inst hl hd hne hv
    have hb : (fd == fd2) = false := by
      simp only [beq_eq_false_iff_ne]
      exact fun he => hne he.symm
    simp [bind_device, hl, hv, hd, hb]

/-- C5 witness: a concrete state whose instance a is bound to handle 3. -/
theorem bind_device_exclusive_witness :
    (bind_device envOk "z" 9 stBound).1 = Except.error BindError.unknownInstance ∧
    bind_device envOk "a" 3 stBound = (Except.ok (), stBound) ∧
    (bind_device envOk "a" 4 stBound).1 = Except.error BindError.alreadyBound :=
  ⟨bind_device_exclusive.1 envOk "z" 9 stBound (by decide),
   bind_device_exclusive.2.1 envOk "a" 3 stBound instBound (by decide) (by decide)
     (by decide),
   bind_device_exclusive.2.2 envOk "a" 3 4 stBound instBound (by decide) (by decide)
     (by decide) (by decide)⟩

/-- C7: a failed create_and_start leaves the registry exactly as it was and
writes a non-empty message to the Error Slot. -/
theorem create_and_start_atomic (E : Env) (n : String) (d : Document)
    (s : MgrState) (e : InstanceError)
    (h : (create_and_start E n d s).1 = Except.error e) :
    (create_and_start E n d s).2.registry = s.registry ∧
    is_registered n (create_and_start E n d s).2 = is_registered n s ∧
    slot_nonempty (create_and_start E n d s).2 = true := by
  by_cases hr : is_registered n s = true
  · simp [create_and_start, hr] at h
  · have hr2 : is_registered n s = false := by simpa using hr
    cases hv : validate_config E d with
    | error e2 =>
      have hres : create_and_start E n d s =
          (Except.error InstanceError.configError,
            set_error s "configuration invalid") := by
        simp [create_and_start, hr2, hv]
      rw [hres]
      exact ⟨rfl, rfl, rfl⟩
    | ok cfg =>
      cases hst : E.start cfg with
      | true => simp [create_and_start, hr2, hv, hst] at h
      | false =>
        have hres : create_and_start E n d s =
            (Except.error InstanceError.startFailure,
              set_error s "runtime startup failed") := by
          simp [create_and_start, hr2, hv, hst]
        rw [hres]
        exact ⟨rfl, rfl, rfl⟩

/-- C7 witness: a concrete create_and_start whose runtime startup fails. -/
theorem create_and_start_atomic_witness :
    (create_and_start envStartFail "a" docOk st0).2.registry = st0.registry ∧
    is_registered "a" (create_and_start envStartFail "a" docOk st0).2 =
      is_registered "a" st0 ∧
    slot_nonempty (create_and_start envStartFail "a" docOk st0).2 = true :=
  create_and_start_atomic envStartFail "a" docOk st0 InstanceError.startFailure
    (by decide)

/-- C8: validation is deterministic and idempotent: its result depends only on
the document, the registry is never touched, success leaves the whole state
untouched, and validating the same document twice yields equal
InstanceConfig values. -/
theorem validate_deterministic :
    (∀ E d s t, (validate_op E d s).1 = (validate_op E d t).1) ∧
    (∀ E d s, (validate_op E d s).2.registry = s.registry) ∧
    (∀ E d s c, (validate_op E d s).1 = Except.ok c → (validate_op E d s).2 = s) ∧
    (∀ E d s c c2, (validate_op E d s).1 = Except.ok c →
      (validate_op E d (validate_op E d s).2).1 = Except.ok c2 → c = c2) := by
  refine ⟨?_, ?_, ?_, ?_⟩
  · intro E d s t
    cases hv : validate_config E d <;> simp [validate_op, hv]
  · intro E d s
    cases hv : validate_config E d <;> simp [validate_op, hv, set_error]
  · intro E d s c h
    cases hv : validate_config E d with
    | error e => simp [validate_op, hv] at h
    | ok c0 => simp [validate_op, hv]
  · intro E d s c c2 h1 h2
    cases hv : validate_config E d with
    | error e => simp [validate_op, hv] at h1
    | ok c0 =>
      simp only [validate_op, hv] at h1 h2
      cases h1
      cases h2
      rfl

/-- C8 witness: validating the concrete valid document from the empty state
succeeds without touching the state. -/
theorem validate_deterministic_witness :
    (validate_op envOk docOk st0).2 = st0 ∧
    ({ fields := docOk } : InstanceConfig) = { fields := docOk } :=
  ⟨validate_deterministic.2.2.1 envOk docOk st0 { fields := docOk } (by decide),
   validate_deterministic.2.2.2 envOk docOk st0 { fields := docOk }
     { fields := docOk } (by decide) (by decide)⟩

/-- C9: release_message is a no-op on a null handle, releasing twice equals
releasing once, and releasing a handle that is no longer live leaves the
heap unchanged. -/
theorem release_message_idempotent :
    (∀ heap : Finset Nat, release_message none heap = heap) ∧
    (∀ (p : Nat) (heap : Finset Nat),
      release_message (some p) (release_message (some p) heap) =
        release_message (some p) heap) ∧
    (∀ (p : Nat) (heap : Finset Nat), p ∉ heap →
      release_message (some p) heap = heap) := by
  refine ⟨fun heap => rfl, ?_, ?_⟩
  · intro p heap
    simp [release_message, Finset.erase_idem]
  · intro p heap h
    simp [release_message, Finset.erase_eq_of_not_mem h]

/-- C9 witness: releasing the handle 5 from the empty heap is a no-op. -/
theorem release_message_idempotent_witness :
    release_message (some 5) (∅ : Finset Nat) = ∅ :=
  release_message_idempotent.2.2 5 ∅ (by decide)

end EasyTier

/-- C10: the kernel-control ioctl constant CTLIOCGINFO is defined identically
on the TARGET_OS_OSX branch of the bridging header and in the iOS fallback
header kern_control.h, namely 0xc0644e03. -/
theorem ctliocginfo_branches_agree :
    BridgingHeaderMacOS.CTLIOCGINFO = KernControlHeader.CTLIOCGINFO ∧
    KernControlHeader.CTLIOCGINFO = 0xc0644e03 :=
  ⟨rfl, rfl⟩

namespace EasyTier

/-- C6: every fallible boundary operation writes a non-empty message to the
Error Slot when it fails; no successful operation clears the slot; and
last_error reads the slot without clearing it. -/
theorem error_slot_discipline :
    (∀ E d s e, (validate_op E d s).1 = Except.error e →
      slot_nonempty (validate_op E d s).2 = true) ∧
    (∀ E n fd s e, (bind_device E n fd s).1 = Except.error e →
      slot_nonempty (bind_device E n fd s).2 = true) ∧
    (∀ E n d s e, (create_and_start E n d s).1 = Except.error e →
      slot_nonempty (create_and_start E n d s).2 = true) ∧
    (∀ E n s e, (stop E n s).1 = Except.error e →
      slot_nonempty (stop E n s).2 = true) ∧
    (∀ E names s e, (retain E names s).1 = Except.error e →
      slot_nonempty (retain E names s).2 = true) ∧
    (∀ maxEntries s, (collect_info false maxEntries s).1.1 < 0 ∧
      slot_nonempty (collect_info false maxEntries s).2 = true) ∧
    (∀ E d s c, (validate_op E d s).1 = Except.ok c →
      (validate_op E d s).2.errorSlot = s.errorSlot) ∧
    (∀ E n fd s, (bind_device E n fd s).1 = Except.ok () →
      (bind_device E n fd s).2.errorSlot = s.errorSlot) ∧
    (∀ E n d s, (create_and_start E n d s).1 = Except.ok () →
      (create_and_start E n d s).2.errorSlot = s.errorSlot) ∧
    (∀ E n s, (stop E n s).1 = Except.ok () →
      (stop E n s).2.errorSlot = s.errorSlot) ∧
    (∀ E names s, (retain E names s).1 = Except.ok () →
      (retain E names s).2.errorSlot = s.errorSlot) ∧
    (∀ maxEntries s, (collect_info true maxEntries s).2.errorSlot = s.errorSlot) ∧
    (∀ s, (last_error s).2 = s) ∧
    (∀ s m, s.errorSlot = some m → (last_error s).1 = m) := by
  refine ⟨?_, ?_, ?_, ?_, ?_, ?_, ?_, ?_, ?_, ?_, ?_, ?_, ?_, ?_⟩
  · intro E d s e h
    cases hv : validate_config E d with
    | ok c => simp [validate_op, hv] at h
    | error e2 =>
      have hres : validate_op E d s =
          (Except.error e2, set_error s "configuration invalid") := by
        simp [validate_op, hv]
      rw [hres]
      rfl
  · intro E n fd s e h
    cases hl : s.registry.lookup n with
    | none =>
      have hres : bind_device E n fd s =
          (Except.error BindError.unknownInstance, set_error s "unknown instance") := by
        simp [bind_device, hl]
      rw [hres]
      rfl
    | some inst =>
      cases hv : E.validHandle fd with
      | false =>
        have hres : bind_device E n fd s =
            (Except.error BindError.invalidHandle,
              set_error s "invalid device handle") := by
          simp [bind_device, hl, hv]
        rw [hres]
        rfl
      | true =>
        cases hd : inst.device with
        | none => simp [bind_device, hl, hv, hd] at h
        | some d =>
          cases hb : (d == fd) with
          | true => simp [bind_device, hl, hv, hd, hb] at h
          | false =>
            have hres : bind_device E n fd s =
                (Except.error BindError.alreadyBound,
                  set_error s "device already bound") := by
              simp [bind_device, hl, hv, hd, hb]
            rw [hres]
            rfl
  · intro E n d s e h
    by_cases hr : is_registered n s = true
    · simp [create_and_start, hr] at h
    · have hr2 : is_registered n s = false := by simpa using hr
      cases hv : validate_config E d with
      | error e2 =>
        have hres : create_and_start E n d s =
            (Except.error InstanceError.configError,
              set_error s "configuration invalid") := by
          simp [create_and_start, hr2, hv]
        rw [hres]
        rfl
      | ok cfg =>
        cases hst : E.start cfg with
        | true => simp [create_and_start, hr2, hv, hst] at h
        | false =>
          have hres : create_and_start E n d s =
              (Except.error InstanceError.startFailure,
                set_error s "runtime startup failed") := by
            simp [create_and_start, hr2, hv, hst]
          rw [hres]
          rfl
  · intro E n s e h
    by_cases hr : is_registered n s = true
    · cases htd : E.teardown n with
      | true => simp [stop, hr, htd] at h
      | false =>
        have hres : stop E n s =
            (Except.error InstanceError.teardownFailure,
              set_error s "runtime teardown failed") := by
          simp [stop, hr, htd]
        rw [hres]
        rfl
    · have hr2 : is_registered n s = false := by simpa using hr
      have hres : stop E n s =
          (Except.error InstanceError.unknownInstance,
            set_error s "unknown instance") := by
        simp [stop, hr2]
      rw [hres]
      rfl
  · intro E names s e h
    cases hf : (s.registry.filter
        (fun p => !(names.contains p.1) && !(E.teardown p.1))).isEmpty with
    | true =>
      simp only [retain] at h
      rw [hf] at h
      simp at h
    | false =>
      have hres : retain E names s =
          (Except.error InstanceError.teardownFailure,
            set_error
              { s with
                registry :=
                  s.registry.filter (fun p => names.contains p.1 || !(E.teardown p.1)) }
              "runtime teardown failed") := by
        simp only [retain]
        rw [hf]
        rfl
      rw [hres]
      rfl
  · intro maxEntries s
    exact ⟨by simp [collect_info], rfl⟩
  · intro E d s c h
    cases hv : validate_config E d with
    | error e => simp [validate_op, hv] at h
    | ok c0 => simp [validate_op, hv]
  · intro E n fd s h
    cases hl : s.registry.lookup n with
    | none => simp [bind_device, hl] at h
    | some inst =>
      cases hv : E.validHandle fd with
      | false => simp [bind_device, hl, hv] at h
      | true =>
        cases hd : inst.device with
        | none => simp [bind_device, hl, hv, hd]
        | some d =>
          cases hb : (d == fd) with
          | true => simp [bind_device, hl, hv, hd, hb]
          | false => simp [bind_device, hl, hv, hd, hb] at h
  · intro E n d s h
    by_cases hr : is_registered n s = true
    · simp [create_and_start, hr]
    · have hr2 : is_registered n s = false := by simpa using hr
      cases hv : validate_config E d with
      | error e2 => simp [create_and_start, hr2, hv] at h
      | ok cfg =>
        cases hst : E.start cfg with
        | false => simp [create_and_start, hr2, hv, hst] at h
        | true => simp [create_and_start, hr2, hv, hst]
  · intro E n s h
    by_cases hr : is_registered n s = true
    · cases htd : E.teardown n with
      | false => simp [stop, hr, htd] at h
      | true => simp [stop, hr, htd]
    · have hr2 : is_registered n s = false := by simpa using hr
      simp [stop, hr2] at h
  · intro E names s h
    cases hf : (s.registry.filter
        (fun p => !(names.contains p.1) && !(E.teardown p.1))).isEmpty with
    | false =>
      simp only [retain] at h
      rw [hf] at h
      simp at h
    | true =>
      simp only [retain]
      rw [hf]
      rfl
  · intro maxEntries s
    rfl
  · intro s
    rfl
  · intro s m h
    simp [last_error, h]

/-- C6 witness: concrete failures of each operation leave a non-empty Error
Slot, a concrete successful bind preserves the slot, and last_error reads
the stored message. -/
theorem error_slot_discipline_witness :
    slot_nonempty (validate_op envOk docBad st0).2 = true ∧
    slot_nonempty (bind_device envOk "a" 1 st0).2 = true ∧
    slot_nonempty (create_and_start envStartFail "b" docOk st0).2 = true ∧
    slot_nonempty (stop envOk "a" st0).2 = true ∧
    slot_nonempty (retain envTeardownFail [] stA).2 = true ∧
    slot_nonempty (collect_info false 4 st0).2 = true ∧
    (validate_op envOk docOk stA).2.errorSlot = stA.errorSlot ∧
    (bind_device envOk "a" 3 stBound).2.errorSlot = stBound.errorSlot ∧
    (last_error (set_error st0 "device already bound")).1 = "device already bound" := by
  obtain ⟨A1, A2, A3, A4, A5, A6, B1, B2, B3, B4, B5, B6, L1, L2⟩ :=
    error_slot_discipline
  exact ⟨A1 envOk docBad st0 ConfigError.missingField (by decide),
    A2 envOk "a" 1 st0 BindError.unknownInstance (by decide),
    A3 envStartFail "b" docOk st0 InstanceError.startFailure (by decide),
    A4 envOk "a" st0 InstanceError.unknownInstance (by decide),
    A5 envTeardownFail [] stA InstanceError.teardownFailure (by decide),
    (A6 4 st0).2,
    B1 envOk docOk stA { fields := docOk } (by decide),
    B2 envOk "a" 3 stBound (by decide),
    L2 (set_error st0 "device already bound") "device already bound" (by decide)⟩

end EasyTier
